import Mathlib

/-!
Shallow embedding of the mutation-decision and patch-synthesis engine of the
simple-sidecar Kubernetes mutating admission webhook
(`pkg/webhook/webhook.go`).

Go maps (`map[string]string`) are modelled as association lists
`List (String × String)`; a `nil` map is `none` in an
`Option (List (String × String))`.  Go map indexing `m[k]`, which yields the
zero value `""` for a missing key, is `goIndex`; the two-result form
`v, ok := m[k]` is `List.lookup`.  Go map iteration order, which is
unspecified, is modelled by the order of the association list.  Go slices are
`List`s (a `nil` slice and an empty slice behave identically everywhere the
code reads them, except `Container.Env` where the code tests `== nil`, hence
the `Option` there).
-/

namespace SimpleSidecar

/-- `corev1.EnvVar` restricted to the fields this webhook ever constructs. -/
structure EnvVar where
  name : String
  value : String
deriving DecidableEq, Repr

/-- `corev1.VolumeMount` restricted to the fields this webhook ever constructs. -/
structure VolumeMount where
  name : String
  mountPath : String
deriving DecidableEq, Repr

/-- `corev1.Volume` restricted to its identifying field. -/
structure Volume where
  name : String
deriving DecidableEq, Repr

/-- `corev1.Container` restricted to the fields the webhook reads or writes.
`env` is an `Option` because `addEnvVars` tests `pod.Spec.Containers[i].Env == nil`. -/
structure Container where
  name : String
  image : String
  env : Option (List EnvVar)
  volumeMounts : List VolumeMount
deriving DecidableEq, Repr

/-- `metav1.ObjectMeta` restricted to the fields `mutationRequired` and
`createPatch` read: `Name`, `Namespace`, `Annotations` (a possibly-nil map). -/
structure ObjectMeta where
  name : String
  namespace' : String
  annotations : Option (List (String × String))
deriving DecidableEq, Repr

/-- The subset of `corev1.PodSpec` the webhook reads. -/
structure PodSpec where
  initContainers : List Container
  containers : List Container
  volumes : List Volume
deriving DecidableEq, Repr

/-- The subset of `corev1.Pod` the webhook reads. -/
structure Pod where
  metadata : ObjectMeta
  spec : PodSpec
deriving DecidableEq, Repr

/-- `Config` from webhook.go; the embedded `ExistingContainerConfig`
(`Volumes`, `EnvVars`, `VolumeMounts`) is flattened into the structure. -/
structure Config where
  initContainers : List Container
  containers : List Container
  volumes : List Volume
  envVars : List EnvVar
  volumeMounts : List VolumeMount
deriving DecidableEq, Repr

/-- `MultiConfig`: a `map[string]Config`, as an association list. -/
def MultiConfig : Type := List (String × Config)

/-- The possible payload shapes of a `patchOperation`'s `interface{}`-typed
`Value` field, one constructor per shape the builder actually produces. -/
inductive PatchValue where
  | container (c : Container)
  | containers (cs : List Container)
  | volume (v : Volume)
  | volumes (vs : List Volume)
  | envVar (e : EnvVar)
  | envVars (es : List EnvVar)
  | volumeMount (vm : VolumeMount)
  | annotations (m : List (String × String))
  | str (s : String)
deriving DecidableEq, Repr

/-- `patchOperation` from webhook.go. -/
structure patchOperation where
  op : String
  path : String
  value : PatchValue
deriving DecidableEq, Repr

/-- ASCII lowering of one character, the fragment of Go's simple case mapping
exercised by the code (the only comparison target, `"injected"`, is ASCII). -/
def lowerChar (c : Char) : Char :=
  if c.toNat ≥ 65 ∧ c.toNat ≤ 90 then Char.ofNat (c.toNat + 32) else c

/-- `strings.ToLower`, restricted to ASCII case mapping. -/
def goToLower (s : String) : String := String.mk (s.data.map lowerChar)

/-- Go map indexing on a possibly-nil `map[string]string`: a missing key (or a
nil map) yields the zero value `""`. -/
def goIndex (m : Option (List (String × String))) (k : String) : String :=
  match m with
  | none => ""
  | some l => (l.lookup k).getD ""

/-- `admissionWebhookAnnotationInjectKey` constant from webhook.go. -/
def admissionWebhookAnnotationInjectKey : String := "simple-sidecar.centml.ai/inject"

/-- `admissionWebhookAnnotationStatusKey` constant from webhook.go (the
`cemtml` spelling is the source's). -/
def admissionWebhookAnnotationStatusKey : String := "simple-sidecar.cemtml.ai/status"

/-- `ignoredNamespaces` from webhook.go: `metav1.NamespaceSystem` and
`metav1.NamespacePublic`. -/
def ignoredNamespaces : List String := ["kube-system", "kube-public"]

/-- `mutationRequired` from webhook.go: decides from the ignored-namespace
list and the pod metadata whether mutation is required and with which
profile key. -/
def mutationRequired (ignoredList : List String) (metadata : ObjectMeta) :
    Bool × String :=
  if ignoredList.contains metadata.namespace' then
    (false, "")
  else
    let annotations := metadata.annotations.getD []
    let status := (annotations.lookup admissionWebhookAnnotationStatusKey).getD ""
    if goToLower status == "injected" then
      (false, "")
    else
      match annotations.lookup admissionWebhookAnnotationInjectKey with
      | some val => (true, val)
      | none => (false, "")

/-- The loop body of `addContainer` from webhook.go: `first` is the running
flag (initially `len(target) == 0`); while it is set, the first added
container is emitted as a whole-array `add` at `basePath` and the flag is
cleared; afterwards each container is appended at `basePath` extended with
the end-of-array segment (a dash). -/
def addContainerLoop (first : Bool) (added : List Container) (basePath : String) :
    List patchOperation :=
  match added with
  | [] => []
  | add :: rest =>
    if first then
      { op := "add", path := basePath, value := .containers [add] }
        :: addContainerLoop false rest basePath
    else
      { op := "add", path := basePath ++ "/-", value := .container add }
        :: addContainerLoop false rest basePath

/-- `addContainer` from webhook.go. -/
def addContainer (target added : List Container) (basePath : String) :
    List patchOperation :=
  addContainerLoop (target.length == 0) added basePath

/-- The loop body of `addVolume` from webhook.go, same shape as
`addContainerLoop`. -/
def addVolumeLoop (first : Bool) (added : List Volume) (basePath : String) :
    List patchOperation :=
  match added with
  | [] => []
  | add :: rest =>
    if first then
      { op := "add", path := basePath, value := .volumes [add] }
        :: addVolumeLoop false rest basePath
    else
      { op := "add", path := basePath ++ "/-", value := .volume add }
        :: addVolumeLoop false rest basePath

/-- `addVolume` from webhook.go. -/
def addVolume (target added : List Volume) (basePath : String) :
    List patchOperation :=
  addVolumeLoop (target.length == 0) added basePath

/-- `updateAnnotation` from webhook.go.  The `added` Go map is iterated in
the order of the association list (Go map iteration order is unspecified, so
claims about this function must hold for every order).  Note the source
reassigns `target` to a fresh empty map inside the `add` branch, so once one
pair takes the `add` branch every later pair sees an empty target. -/
def updateAnnotation (target : Option (List (String × String)))
    (added : List (String × String)) : List patchOperation :=
  match added with
  | [] => []
  | (key, value) :: rest =>
    if target == none || goIndex target key == "" then
      { op := "add", path := "/metadata/annotations",
        value := .annotations [(key, value)] }
        :: updateAnnotation (some []) rest
    else
      { op := "replace", path := "/metadata/annotations/" ++ key,
        value := .str value }
        :: updateAnnotation target rest

/-- `addVolumeMounts` from webhook.go: for each existing container index `i`
(the loop reads only the index) and each mount, append at the container's
`volumeMounts` end-of-array pointer. -/
def addVolumeMounts (pod : Pod) (vms : List VolumeMount) : List patchOperation :=
  (List.range pod.spec.containers.length).flatMap fun i =>
    vms.map fun vm =>
      { op := "add",
        path := "/spec/containers/" ++ toString i ++ "/volumeMounts/-",
        value := .volumeMount vm }

/-- `addEnvVars` from webhook.go: short-circuits on an empty `envVars` list;
otherwise, per existing container, first a guard `add` of an empty `env`
array when `Env == nil`, then one append per variable. -/
def addEnvVars (pod : Pod) (envVars : List EnvVar) : List patchOperation :=
  if envVars.length == 0 then []
  else
    pod.spec.containers.enum.flatMap fun ic =>
      (if ic.2.env == none then
        [{ op := "add", path := "/spec/containers/" ++ toString ic.1 ++ "/env",
           value := .envVars [] }]
      else []) ++
      envVars.map fun envVar =>
        { op := "add", path := "/spec/containers/" ++ toString ic.1 ++ "/env/-",
          value := .envVar envVar }

/-- `createPatch` from webhook.go, with the final `json.Marshal` step (which
is external serialization) left out: the function returns the ordered
operation list that the source marshals.  The source builds the list by six
successive `append`s, mirrored here by successive concatenations. -/
def createPatch (pod : Pod) (sidecarConfig : Config)
    (annotations : List (String × String)) : List patchOperation :=
  let patch : List patchOperation := []
  let patch := patch ++ addVolumeMounts pod sidecarConfig.volumeMounts
  let patch := patch ++ addEnvVars pod sidecarConfig.envVars
  let patch := patch ++ addContainer pod.spec.initContainers
      sidecarConfig.initContainers "/spec/initContainers"
  let patch := patch ++ addContainer pod.spec.containers
      sidecarConfig.containers "/spec/containers"
  let patch := patch ++ addVolume pod.spec.volumes
      sidecarConfig.volumes "/spec/volumes"
  let patch := patch ++ updateAnnotation pod.metadata.annotations annotations
  patch

/-- The admission outcome of `mutate` from webhook.go.  `deny` models the
error response (`AdmissionResponse` carrying only a failure message); in the
source it is reachable only from external deserialization or serialization
faults, neither of which the in-core model can produce. -/
inductive Outcome where
  | allow : Outcome
  | allowWithPatch : List patchOperation → Outcome
  | deny : String → Outcome
deriving DecidableEq, Repr

/-- `mutate` from webhook.go, after the external unmarshalling of the pod:
evaluate `mutationRequired` against the fixed `ignoredNamespaces`, look the
profile key up in the registry, and build the patch with the bookkeeping
annotation `{status-key: "injected"}`. -/
def mutate (sidecarConfigs : MultiConfig) (pod : Pod) : Outcome :=
  let rm := mutationRequired ignoredNamespaces pod.metadata
  if !rm.1 then
    .allow
  else
    match List.lookup rm.2 sidecarConfigs with
    | none => .allow
    | some config =>
      let annotations := [(admissionWebhookAnnotationStatusKey, "injected")]
      .allowWithPatch (createPatch pod config annotations)

/-- Set a key in an association list, replacing the first binding when
present, appending otherwise. -/
def setAssoc (l : List (String × String)) (k v : String) :
    List (String × String) :=
  match l with
  | [] => [(k, v)]
  | (k', v') :: rest =>
    if k' == k then (k, v) :: rest else (k', v') :: setAssoc rest k v

/-- Modify the element at index `i` of a list, identity when out of range. -/
def modifyAt (l : List Container) (i : Nat) (f : Container → Container) :
    List Container :=
  match l, i with
  | [], _ => []
  | c :: rest, 0 => f c :: rest
  | c :: rest, n + 1 => c :: modifyAt rest n f

/-- Split a character list at every slash (the JSON Pointer separator). -/
def splitSlashAux : List Char → List Char → List (List Char)
  | [], acc => [acc.reverse]
  | c :: rest, acc =>
    if c == '/' then acc.reverse :: splitSlashAux rest []
    else splitSlashAux rest (c :: acc)

/-- The segments of a JSON Pointer path (equivalent to splitting the string
on every slash). -/
def pathSegments (s : String) : List String :=
  (splitSlashAux s.data []).map String.mk

/-- Parse a non-empty all-digit character list as a decimal number. -/
def digitsToNat? (l : List Char) : Option Nat :=
  l.foldl
    (fun acc c =>
      match acc with
      | none => none
      | some n => if c.isDigit then some (n * 10 + (c.toNat - 48)) else none)
    (if l.isEmpty then none else some 0)

/-- Modelled from the spec: RFC 6902 application, to the pod spec, of one
patch operation of the shapes this builder emits — needed to state the
policy round-trip property ("applying the generated patch to the pod and
re-running Decide").  An operation whose path or value does not match any
emitted shape leaves the spec unchanged. -/
def applySpecOp (spec : PodSpec) (o : patchOperation) : PodSpec :=
  if o.path == "/spec/initContainers" then
    match o.value with
    | .containers cs => { spec with initContainers := cs }
    | _ => spec
  else if o.path == "/spec/initContainers/-" then
    match o.value with
    | .container c => { spec with initContainers := spec.initContainers ++ [c] }
    | _ => spec
  else if o.path == "/spec/containers" then
    match o.value with
    | .containers cs => { spec with containers := cs }
    | _ => spec
  else if o.path == "/spec/containers/-" then
    match o.value with
    | .container c => { spec with containers := spec.containers ++ [c] }
    | _ => spec
  else if o.path == "/spec/volumes" then
    match o.value with
    | .volumes vs => { spec with volumes := vs }
    | _ => spec
  else if o.path == "/spec/volumes/-" then
    match o.value with
    | .volume v => { spec with volumes := spec.volumes ++ [v] }
    | _ => spec
  else
    match pathSegments o.path, o.value with
    | ["", "spec", "containers", i, "volumeMounts", "-"], .volumeMount vm =>
      match digitsToNat? i.data with
      | some n =>
        let f := fun c => { c with volumeMounts := c.volumeMounts ++ [vm] }
        { spec with containers := modifyAt spec.containers n f }
      | none => spec
    | ["", "spec", "containers", i, "env"], .envVars es =>
      match digitsToNat? i.data with
      | some n =>
        let f := fun c => { c with env := some es }
        { spec with containers := modifyAt spec.containers n f }
      | none => spec
    | ["", "spec", "containers", i, "env", "-"], .envVar e =>
      match digitsToNat? i.data with
      | some n =>
        let f := fun c => { c with env := some ((c.env.getD []) ++ [e]) }
        { spec with containers := modifyAt spec.containers n f }
      | none => spec
    | _, _ => spec

/-- Modelled from the spec: apply one emitted patch operation to a pod.  The
two metadata shapes set the annotations member wholesale (RFC 6902 `add` of
an object member replaces it) or one key; every other shape touches only the
pod spec.  The key of an annotation-replace path is all the text after the
`/metadata/annotations/` prefix, as the source intends when it concatenates
the raw annotation key, which itself contains a slash. -/
def applyOp (pod : Pod) (o : patchOperation) : Pod :=
  if o.path == "/metadata/annotations" then
    match o.value with
    | .annotations m =>
      { pod with metadata := { pod.metadata with annotations := some m } }
    | _ => pod
  else if ("/metadata/annotations/".data).isPrefixOf o.path.data then
    match o.value with
    | .str v =>
      let k := String.mk (o.path.data.drop 22)
      let anns := setAssoc (pod.metadata.annotations.getD []) k v
      { pod with metadata := { pod.metadata with annotations := some anns } }
    | _ => pod
  else
    { pod with spec := applySpecOp pod.spec o }

/-- Modelled from the spec: apply a whole patch, operations in order. -/
def applyPatch (pod : Pod) (patch : List patchOperation) : Pod :=
  patch.foldl applyOp pod

/-- The status-annotation value the evaluator reads, with Go's zero-value
default for a missing key or nil map. -/
def statusValue (m : ObjectMeta) : String :=
  ((m.annotations.getD []).lookup admissionWebhookAnnotationStatusKey).getD ""

/-- The inject-annotation lookup (presence-sensitive, as Go's two-result map
read). -/
def injectLookup (m : ObjectMeta) : Option String :=
  (m.annotations.getD []).lookup admissionWebhookAnnotationInjectKey

/-- Whether a patch value is an environment-variable payload: a single
variable (an env append) or a variable array (the empty-array guard).  Only
the environment step ever builds such values. -/
def isEnvValue : PatchValue → Bool
  | .envVar _ => true
  | .envVars _ => true
  | _ => false

/-- Unfolding lemma: the evaluator as a three-way priority test. -/
theorem mutationRequired_eq (il : List String) (m : ObjectMeta) :
    mutationRequired il m =
      if il.contains m.namespace' then (false, "")
      else if goToLower (statusValue m) == "injected" then (false, "")
      else
        match injectLookup m with
        | some val => (true, val)
        | none => (false, "") := rfl

theorem mutationRequired_of_contains (il : List String) (m : ObjectMeta)
    (h : il.contains m.namespace' = true) :
    mutationRequired il m = (false, "") := by
  rw [mutationRequired_eq, h]
  simp

theorem contains_of_mem {il : List String} {s : String} (h : s ∈ il) :
    il.contains s = true := by
  simpa using h

/-- C3: for every pod whose namespace is in the ignored-namespaces set, the
evaluator answers "not required" and `mutate` allows the pod unmutated,
regardless of its annotations. -/
theorem mutate_allow_of_ignored_namespace (cfgs : MultiConfig) (pod : Pod)
    (h : pod.metadata.namespace' ∈ ignoredNamespaces) :
    mutationRequired ignoredNamespaces pod.metadata = (false, "") ∧
      mutate cfgs pod = .allow := by
  have hc := contains_of_mem h
  refine ⟨mutationRequired_of_contains _ _ hc, ?_⟩
  simp [mutate, mutationRequired_of_contains _ _ hc]

/-- Witness for C3 at a concrete kube-system pod carrying an inject
annotation. -/
theorem mutate_allow_of_ignored_namespace_witness :
    (⟨⟨"p", "kube-system", some [(admissionWebhookAnnotationInjectKey, "web")]⟩,
        ⟨[], [], []⟩⟩ : Pod).metadata.namespace' ∈ ignoredNamespaces ∧
    mutate []
      ⟨⟨"p", "kube-system", some [(admissionWebhookAnnotationInjectKey, "web")]⟩,
        ⟨[], [], []⟩⟩ = .allow :=
  ⟨by decide,
    (mutate_allow_of_ignored_namespace []
      ⟨⟨"p", "kube-system", some [(admissionWebhookAnnotationInjectKey, "web")]⟩,
        ⟨[], [], []⟩⟩ (by decide)).2⟩

/-- C2: a pod whose status annotation lowers (ASCII case-insensitively) to
`"injected"` is never mutated: the evaluator answers "not required" and
`mutate` allows it, even when the inject annotation is also present. -/
theorem mutate_allow_of_status_injected (cfgs : MultiConfig) (pod : Pod)
    (h : goToLower (statusValue pod.metadata) = "injected") :
    mutationRequired ignoredNamespaces pod.metadata = (false, "") ∧
      mutate cfgs pod = .allow := by
  have hb : (goToLower (statusValue pod.metadata) == "injected") = true := by
    simp [h]
  by_cases hc : ignoredNamespaces.contains pod.metadata.namespace' = true
  · exact ⟨mutationRequired_of_contains _ _ hc, by
      simp [mutate, mutationRequired_of_contains _ _ hc]⟩
  · have hc' : ignoredNamespaces.contains pod.metadata.namespace' = false := by
      simpa using hc
    have hm : mutationRequired ignoredNamespaces pod.metadata = (false, "") := by
      rw [mutationRequired_eq, hc', hb]
      simp
    exact ⟨hm, by simp [mutate, hm]⟩

/-- Witness for C2 at a mixed-case `Injected` status with the inject
annotation also present. -/
theorem mutate_allow_of_status_injected_witness :
    goToLower (statusValue
      ⟨"p", "default",
        some [(admissionWebhookAnnotationStatusKey, "Injected"),
              (admissionWebhookAnnotationInjectKey, "web")]⟩) = "injected" ∧
    mutate []
      ⟨⟨"p", "default",
        some [(admissionWebhookAnnotationStatusKey, "Injected"),
              (admissionWebhookAnnotationInjectKey, "web")]⟩, ⟨[], [], []⟩⟩ =
      .allow :=
  ⟨by decide,
    (mutate_allow_of_status_injected []
      ⟨⟨"p", "default",
        some [(admissionWebhookAnnotationStatusKey, "Injected"),
              (admissionWebhookAnnotationInjectKey, "web")]⟩, ⟨[], [], []⟩⟩
      (by decide)).2⟩

/-- C6: when the evaluator requires mutation but the resolved profile key has
no registry entry, `mutate` allows the pod with no patch and no denial. -/
theorem mutate_allow_of_unknown_profile (cfgs : MultiConfig) (pod : Pod)
    (key : String)
    (h1 : mutationRequired ignoredNamespaces pod.metadata = (true, key))
    (h2 : List.lookup key cfgs = none) :
    mutate cfgs pod = .allow := by
  simp [mutate, h1, h2]

/-- Witness for C6: inject annotation names profile `web`, registry empty. -/
theorem mutate_allow_of_unknown_profile_witness :
    mutationRequired ignoredNamespaces
      (⟨⟨"p", "default", some [(admissionWebhookAnnotationInjectKey, "web")]⟩,
        ⟨[], [], []⟩⟩ : Pod).metadata = (true, "web") ∧
    List.lookup "web" ([] : MultiConfig) = none ∧
    mutate []
      ⟨⟨"p", "default", some [(admissionWebhookAnnotationInjectKey, "web")]⟩,
        ⟨[], [], []⟩⟩ = .allow :=
  ⟨by decide, by rfl,
    mutate_allow_of_unknown_profile []
      ⟨⟨"p", "default", some [(admissionWebhookAnnotationInjectKey, "web")]⟩,
        ⟨[], [], []⟩⟩ "web" (by decide) (by rfl)⟩

/-- C5: for a pod in a non-ignored namespace that is not already marked
injected, the decision is exactly the presence test of the inject-request
annotation: present with any value `v` (the empty string included) gives
`(true, v)`, absent gives `(false, "")`; and a nil annotations map behaves
as an empty mapping. -/
theorem mutationRequired_inject_presence (il : List String) (m : ObjectMeta)
    (hns : m.namespace' ∉ il)
    (hst : goToLower (statusValue m) ≠ "injected") :
    (∀ v, injectLookup m = some v → mutationRequired il m = (true, v)) ∧
    (injectLookup m = none → mutationRequired il m = (false, "")) ∧
    (∀ nm ns, mutationRequired il ⟨nm, ns, none⟩ =
        mutationRequired il ⟨nm, ns, some []⟩) := by
  have hc : il.contains m.namespace' = false := by
    simpa using hns
  have hsb : (goToLower (statusValue m) == "injected") = false := by
    simpa using hst
  refine ⟨?_, ?_, ?_⟩
  · intro v hv
    rw [mutationRequired_eq, hc, hsb]
    simp [hv]
  · intro hv
    rw [mutationRequired_eq, hc, hsb]
    simp [hv]
  · intro nm ns
    rfl

/-- Witness for C5: an empty-string inject value still triggers mutation
with the empty profile key. -/
theorem mutationRequired_inject_presence_witness :
    (⟨"p", "default", some [(admissionWebhookAnnotationInjectKey, "")]⟩ :
        ObjectMeta).namespace' ∉ ignoredNamespaces ∧
    goToLower (statusValue
      ⟨"p", "default", some [(admissionWebhookAnnotationInjectKey, "")]⟩) ≠
      "injected" ∧
    injectLookup
      ⟨"p", "default", some [(admissionWebhookAnnotationInjectKey, "")]⟩ =
      some "" ∧
    mutationRequired ignoredNamespaces
      ⟨"p", "default", some [(admissionWebhookAnnotationInjectKey, "")]⟩ =
      (true, "") :=
  ⟨by decide, by decide, by decide,
    (mutationRequired_inject_presence ignoredNamespaces
      ⟨"p", "default", some [(admissionWebhookAnnotationInjectKey, "")]⟩
      (by decide) (by decide)).1 "" (by decide)⟩

/-- C10: the decision is a function of namespace and annotation mapping
alone — two pods agreeing on namespace and (extensionally) on annotations
get the same decision whatever their specs and names — and a "not required"
decision always carries the empty profile key. -/
theorem mutationRequired_ns_annotations_only :
    (∀ (il : List String) (p1 p2 : Pod),
      p1.metadata.namespace' = p2.metadata.namespace' →
      (∀ k, (p1.metadata.annotations.getD []).lookup k =
          (p2.metadata.annotations.getD []).lookup k) →
      mutationRequired il p1.metadata = mutationRequired il p2.metadata) ∧
    (∀ (il : List String) (m : ObjectMeta),
      (mutationRequired il m).1 = false → (mutationRequired il m).2 = "") := by
  constructor
  · intro il p1 p2 hns hann
    rw [mutationRequired_eq, mutationRequired_eq, hns]
    simp only [statusValue, injectLookup]
    rw [hann admissionWebhookAnnotationStatusKey,
      hann admissionWebhookAnnotationInjectKey]
  · intro il m
    rw [mutationRequired_eq]
    split
    · simp
    · split
      · simp
      · cases hinj : injectLookup m <;> simp

/-- Witness for C10: two pods with different names and specs, one annotation
list carrying a shadowed duplicate key, same decision; and an ignored-pod
decision carries the empty key. -/
theorem mutationRequired_ns_annotations_only_witness :
    mutationRequired ignoredNamespaces
      (⟨⟨"a", "default", some [("x", "1"), ("x", "2")]⟩,
        ⟨[], [⟨"app", "img", none, []⟩], []⟩⟩ : Pod).metadata =
      mutationRequired ignoredNamespaces
        (⟨⟨"b", "default", some [("x", "1")]⟩, ⟨[], [], []⟩⟩ : Pod).metadata ∧
    (mutationRequired ignoredNamespaces ⟨"c", "kube-system", none⟩).2 = "" := by
  constructor
  · refine mutationRequired_ns_annotations_only.1 ignoredNamespaces
      ⟨⟨"a", "default", some [("x", "1"), ("x", "2")]⟩,
        ⟨[], [⟨"app", "img", none, []⟩], []⟩⟩
      ⟨⟨"b", "default", some [("x", "1")]⟩, ⟨[], [], []⟩⟩ rfl ?_
    intro k
    by_cases h : k = "x"
    · subst h; rfl
    · have hb : (k == "x") = false := by simp [h]
      simp [List.lookup, hb]
  · exact mutationRequired_ns_annotations_only.2 ignoredNamespaces
      ⟨"c", "kube-system", none⟩ (by decide)

/-- Helper: `createPatch` unfolded into the six step outputs. -/
theorem createPatch_unfold (pod : Pod) (cfg : Config)
    (ann : List (String × String)) :
    createPatch pod cfg ann =
      addVolumeMounts pod cfg.volumeMounts ++
      addEnvVars pod cfg.envVars ++
      addContainer pod.spec.initContainers cfg.initContainers
        "/spec/initContainers" ++
      addContainer pod.spec.containers cfg.containers "/spec/containers" ++
      addVolume pod.spec.volumes cfg.volumes "/spec/volumes" ++
      updateAnnotation pod.metadata.annotations ann := rfl

/-- C7: the built patch is exactly the concatenation of the six step
outputs in the fixed source order — volume mounts, env vars, init
containers, containers, volumes, then annotation bookkeeping last — each
step's element order preserved. -/
theorem createPatch_is_ordered_concat (pod : Pod) (cfg : Config)
    (ann : List (String × String)) :
    createPatch pod cfg ann =
      addVolumeMounts pod cfg.volumeMounts ++
      addEnvVars pod cfg.envVars ++
      addContainer pod.spec.initContainers cfg.initContainers
        "/spec/initContainers" ++
      addContainer pod.spec.containers cfg.containers "/spec/containers" ++
      addVolume pod.spec.volumes cfg.volumes "/spec/volumes" ++
      updateAnnotation pod.metadata.annotations ann := rfl

theorem addContainerLoop_no_env (added : List Container) :
    ∀ (first : Bool) (bp : String) (o : patchOperation),
      o ∈ addContainerLoop first added bp → isEnvValue o.value = false := by
  induction added with
  | nil => intro first bp o ho; simp [addContainerLoop] at ho
  | cons a rest ih =>
    intro first bp o ho
    cases first <;> simp [addContainerLoop] at ho <;>
      rcases ho with rfl | ho
    · rfl
    · exact ih false bp o ho
    · rfl
    · exact ih false bp o ho

theorem addVolumeLoop_no_env (added : List Volume) :
    ∀ (first : Bool) (bp : String) (o : patchOperation),
      o ∈ addVolumeLoop first added bp → isEnvValue o.value = false := by
  induction added with
  | nil => intro first bp o ho; simp [addVolumeLoop] at ho
  | cons a rest ih =>
    intro first bp o ho
    cases first <;> simp [addVolumeLoop] at ho <;>
      rcases ho with rfl | ho
    · rfl
    · exact ih false bp o ho
    · rfl
    · exact ih false bp o ho

theorem addVolumeMounts_no_env (pod : Pod) (vms : List VolumeMount) :
    ∀ o ∈ addVolumeMounts pod vms, isEnvValue o.value = false := by
  intro o ho
  simp [addVolumeMounts, List.mem_flatMap, List.mem_map] at ho
  obtain ⟨i, _, vm, _, rfl⟩ := ho
  rfl

theorem updateAnnotation_no_env (added : List (String × String)) :
    ∀ (target : Option (List (String × String))) (o : patchOperation),
      o ∈ updateAnnotation target added → isEnvValue o.value = false := by
  induction added with
  | nil => intro t o ho; simp [ updateAnnotation] at ho
  | cons p rest ih =>
    intro t o ho
    obtain ⟨key, value⟩ := p
    by_cases h : (t == none || goIndex t key == "") = true
    · simp [ updateAnnotation, h] at ho
      rcases ho with rfl | ho
      · rfl
      · exact ih _ o ho
    · simp [ updateAnnotation, h] at ho
      rcases ho with rfl | ho
      · rfl
      · exact ih _ o ho

/-- C8: with an empty `envVars` profile field the environment step
contributes zero operations, and no operation carrying an env payload (an
env append or the empty-array guard) appears anywhere in the built patch,
for any pod. -/
theorem createPatch_no_env_ops (pod : Pod) (cfg : Config)
    (ann : List (String × String)) (h : cfg.envVars = []) :
    addEnvVars pod cfg.envVars = [] ∧
      ∀ o ∈ createPatch pod cfg ann, isEnvValue o.value = false := by
  have he : addEnvVars pod cfg.envVars = [] := by rw [h]; rfl
  refine ⟨he, ?_⟩
  intro o ho
  rw [createPatch_unfold, he] at ho
  simp only [List.append_nil, List.nil_append, List.mem_append] at ho
  rcases ho with (((h1 | h3) | h4) | h5) | h6
  · exact addVolumeMounts_no_env pod _ o h1
  · exact addContainerLoop_no_env _ _ _ o h3
  · exact addContainerLoop_no_env _ _ _ o h4
  · exact addVolumeLoop_no_env _ _ _ o h5
  · exact updateAnnotation_no_env _ _ o h6

/-- Witness for C8: a profile with a container and a volume but no env vars
yields a patch with no env payloads. -/
theorem createPatch_no_env_ops_witness :
    (⟨[], [⟨"sc", "busybox", none, []⟩], [⟨"v"⟩], [], []⟩ : Config).envVars =
      [] ∧
    (addEnvVars
        ⟨⟨"p", "default", some [(admissionWebhookAnnotationInjectKey, "web")]⟩,
          ⟨[], [⟨"app", "img", none, []⟩], []⟩⟩
        (⟨[], [⟨"sc", "busybox", none, []⟩], [⟨"v"⟩], [], []⟩ : Config).envVars =
        [] ∧
      ∀ o ∈ createPatch
          ⟨⟨"p", "default", some [(admissionWebhookAnnotationInjectKey, "web")]⟩,
            ⟨[], [⟨"app", "img", none, []⟩], []⟩⟩
          ⟨[], [⟨"sc", "busybox", none, []⟩], [⟨"v"⟩], [], []⟩
          [(admissionWebhookAnnotationStatusKey, "injected")],
        isEnvValue o.value = false) :=
  ⟨rfl,
    createPatch_no_env_ops
      ⟨⟨"p", "default", some [(admissionWebhookAnnotationInjectKey, "web")]⟩,
        ⟨[], [⟨"app", "img", none, []⟩], []⟩⟩
      ⟨[], [⟨"sc", "busybox", none, []⟩], [⟨"v"⟩], [], []⟩
      [(admissionWebhookAnnotationStatusKey, "injected")] rfl⟩

theorem addContainerLoop_false (added : List Container) (bp : String) :
    addContainerLoop false added bp =
      added.map fun c =>
        { op := "add", path := bp ++ "/-", value := .container c } := by
  induction added with
  | nil => rfl
  | cons a rest ih => simp [addContainerLoop, ih]

/-- Counterexample to C1 as stated: with zero existing containers and two
injected containers, the first emitted operation's value is the singleton
array holding only the first container, followed by an append — not a
single operation whose value is the entire injected list. -/
theorem addContainer_whole_list_counterexample :
    addContainer [] [⟨"a", "imgA", none, []⟩, ⟨"b", "imgB", none, []⟩]
        "/spec/containers" =
      [{ op := "add", path := "/spec/containers",
         value := .containers [⟨"a", "imgA", none, []⟩] },
       { op := "add", path := "/spec/containers/-",
         value := .container ⟨"b", "imgB", none, []⟩ }] ∧
    addContainer [] [⟨"a", "imgA", none, []⟩, ⟨"b", "imgB", none, []⟩]
        "/spec/containers" ≠
      [{ op := "add", path := "/spec/containers",
         value := .containers
           [⟨"a", "imgA", none, []⟩, ⟨"b", "imgB", none, []⟩] }] := by
  decide

/-- C1 (amended): with zero existing containers, the first injected
container is emitted as one add at the base path whose value is the
singleton array of that first container, and each later container as an
append at the dash path; with one or more existing containers, every
injected container is an append, in declared order. -/
theorem addContainer_shape (a : Container) (rest added target : List Container)
    (bp : String) (hne : target ≠ []) :
    addContainer [] (a :: rest) bp =
      { op := "add", path := bp, value := .containers [a] } ::
        rest.map (fun c =>
          { op := "add", path := bp ++ "/-", value := .container c }) ∧
    addContainer target added bp =
      added.map fun c =>
        { op := "add", path := bp ++ "/-", value := .container c } := by
  constructor
  · show addContainerLoop true (a :: rest) bp = _
    simp [addContainerLoop, addContainerLoop_false]
  · cases target with
    | nil => exact absurd rfl hne
    | cons t ts => exact addContainerLoop_false added bp

/-- Witness for C1 (amended) on a concrete two-container profile against an
empty pod and against a one-container pod. -/
theorem addContainer_shape_witness :
    ([⟨"app", "img", none, []⟩] : List Container) ≠ [] ∧
    (addContainer [] [⟨"a", "imgA", none, []⟩, ⟨"b", "imgB", none, []⟩]
        "/spec/containers" =
      { op := "add", path := "/spec/containers",
        value := .containers [⟨"a", "imgA", none, []⟩] } ::
        [⟨"b", "imgB", none, []⟩].map (fun c =>
          { op := "add", path := "/spec/containers" ++ "/-",
            value := .container c }) ∧
    addContainer [⟨"app", "img", none, []⟩]
        [⟨"a", "imgA", none, []⟩, ⟨"b", "imgB", none, []⟩]
        "/spec/containers" =
      [⟨"a", "imgA", none, []⟩, ⟨"b", "imgB", none, []⟩].map fun c =>
        { op := "add", path := "/spec/containers" ++ "/-",
          value := .container c }) :=
  ⟨by decide,
    addContainer_shape ⟨"a", "imgA", none, []⟩ [⟨"b", "imgB", none, []⟩]
      [⟨"a", "imgA", none, []⟩, ⟨"b", "imgB", none, []⟩]
      [⟨"app", "img", none, []⟩] "/spec/containers" (by decide)⟩

/-- Counterexample to C9 as stated: with current annotations `{a: x}` and
the bookkeeping pairs iterated as `(b,2)` then `(a,1)`, the pair `(a,1)` —
whose key has the non-empty current value `x` — emits an add, not the
replace the claim requires, because the add branch taken for `(b,2)` reset
the target to an empty map. -/
theorem updateAnnotation_reset_counterexample :
    updateAnnotation (some [("a", "x")]) [("b", "2"), ("a", "1")] =
      [{ op := "add", path := "/metadata/annotations",
         value := .annotations [("b", "2")] },
       { op := "add", path := "/metadata/annotations",
         value := .annotations [("a", "1")] }] ∧
    goIndex (some [("a", "x")]) "a" = "x" ∧
    ∀ o ∈ updateAnnotation (some [("a", "x")]) [("b", "2"), ("a", "1")],
      o.op ≠ "replace" := by
  decide

/-- C9 (amended): for a single-entry bookkeeping mapping — the only shape
the orchestrator passes — the step emits the whole-mapping add when the
annotations map is nil or carries no non-empty value for the key, and the
per-key replace otherwise.  (For multi-entry mappings, any pair that takes
the add branch resets the target to an empty map, so every later pair also
emits an add.) -/
theorem updateAnnotation_single (target : Option (List (String × String)))
    (k v : String) :
    updateAnnotation target [(k, v)] =
      if (target == none || goIndex target k == "") = true then
        [{ op := "add", path := "/metadata/annotations",
           value := .annotations [(k, v)] }]
      else
        [{ op := "replace", path := "/metadata/annotations/" ++ k,
           value := .str v }] := by
  by_cases h : (target == none || goIndex target k == "") = true <;>
    simp [ updateAnnotation, h]

theorem mutate_allow_of_not_required (cfgs : MultiConfig) (pod : Pod)
    (h : (mutationRequired ignoredNamespaces pod.metadata).1 = false) :
    mutate cfgs pod = .allow := by
  have hb : (!(mutationRequired ignoredNamespaces pod.metadata).1) = true := by
    simp [h]
  simp [mutate, hb]

theorem mutationRequired_fst_false_of_status (il : List String)
    (m : ObjectMeta) (h : goToLower (statusValue m) = "injected") :
    (mutationRequired il m).1 = false := by
  have hb : (goToLower (statusValue m) == "injected") = true := by simp [h]
  rw [mutationRequired_eq, hb]
  split
  · rfl
  · simp

theorem lookup_setAssoc (l : List (String × String)) (k v : String) :
    (setAssoc l k v).lookup k = some v := by
  induction l with
  | nil => simp [setAssoc, List.lookup]
  | cons p rest ih =>
    obtain ⟨k', v'⟩ := p
    by_cases h : k' = k
    · simp [setAssoc, h, List.lookup]
    · have hb : (k' == k) = false := by simp [h]
      have hb2 : (k == k') = false := by
        simp
        exact fun hh => h hh.symm
      simp [setAssoc, hb, List.lookup, hb2, ih]

/-- The patch operation the annotation step emits for the orchestrator's
single bookkeeping entry when the status key currently has no non-empty
value. -/
def statusAddOp : patchOperation :=
  { op := "add", path := "/metadata/annotations",
    value := .annotations [(admissionWebhookAnnotationStatusKey, "injected")] }

/-- The patch operation the annotation step emits for the orchestrator's
single bookkeeping entry when the status key currently has a non-empty
value. -/
def statusReplaceOp : patchOperation :=
  { op := "replace",
    path := "/metadata/annotations/" ++ admissionWebhookAnnotationStatusKey,
    value := .str "injected" }

theorem applyOp_statusAddOp (q : Pod) :
    (applyOp q statusAddOp).metadata.annotations =
      some [(admissionWebhookAnnotationStatusKey, "injected")] := by
  simp [applyOp, statusAddOp]

theorem applyOp_statusReplaceOp (q : Pod) :
    (applyOp q statusReplaceOp).metadata.annotations =
      some (setAssoc (q.metadata.annotations.getD [])
        admissionWebhookAnnotationStatusKey "injected") := by
  have h1 : (("/metadata/annotations/" ++ admissionWebhookAnnotationStatusKey)
      == "/metadata/annotations") = false := by decide
  have h2 : (("/metadata/annotations/".data).isPrefixOf
      ("/metadata/annotations/" ++ admissionWebhookAnnotationStatusKey).data) =
      true := by decide
  have h3 : String.mk
      (("/metadata/annotations/" ++
        admissionWebhookAnnotationStatusKey).data.drop 22) =
      admissionWebhookAnnotationStatusKey := by decide
  simp [applyOp, statusReplaceOp, h1, h2, h3]

theorem goToLower_injected : goToLower "injected" = "injected" := by decide

theorem status_after_statusAddOp (q : Pod) :
    goToLower (statusValue (applyOp q statusAddOp).metadata) = "injected" := by
  simp [statusValue, applyOp_statusAddOp, List.lookup, goToLower_injected]

theorem status_after_statusReplaceOp (q : Pod) :
    goToLower (statusValue (applyOp q statusReplaceOp).metadata) =
      "injected" := by
  simp [statusValue, applyOp_statusReplaceOp, lookup_setAssoc,
    goToLower_injected]

theorem applyPatch_append_single (pod : Pod) (pre : List patchOperation)
    (o : patchOperation) :
    applyPatch pod (pre ++ [o]) = applyOp (applyPatch pod pre) o := by
  simp [applyPatch, List.foldl_append]

/-- C4: policy round-trip — whenever `mutate` produces a patch, applying
that patch to the pod (its annotation-bookkeeping operation sets the status
annotation to `"injected"`) makes a second `mutate` return plain allow with
no patch. -/
theorem mutate_roundtrip (cfgs : MultiConfig) (pod : Pod)
    (patch : List patchOperation)
    (h : mutate cfgs pod = .allowWithPatch patch) :
    mutate cfgs (applyPatch pod patch) = .allow := by
  have hreq : (mutationRequired ignoredNamespaces pod.metadata).1 = true := by
    by_contra hc
    have hc' : (!(mutationRequired ignoredNamespaces pod.metadata).1) = true := by
      simp [Bool.not_eq_true] at hc
      simp [hc]
    simp only [mutate, hc', if_true] at h
    exact Outcome.noConfusion h
  have hnot : (!(mutationRequired ignoredNamespaces pod.metadata).1) = false := by
    simp [hreq]
  simp only [mutate, hnot, Bool.false_eq_true, if_false] at h
  rcases hcfg : List.lookup (mutationRequired ignoredNamespaces pod.metadata).2
      cfgs with _ | config
  · rw [hcfg] at h
    exact Outcome.noConfusion h
  · rw [hcfg] at h
    have hpatch : createPatch pod config
        [(admissionWebhookAnnotationStatusKey, "injected")] = patch := by
      cases h
      rfl
    subst hpatch
    have hsplit : createPatch pod config
        [(admissionWebhookAnnotationStatusKey, "injected")] =
        (addVolumeMounts pod config.volumeMounts ++
          addEnvVars pod config.envVars ++
          addContainer pod.spec.initContainers config.initContainers
            "/spec/initContainers" ++
          addContainer pod.spec.containers config.containers
            "/spec/containers" ++
          addVolume pod.spec.volumes config.volumes "/spec/volumes") ++
        updateAnnotation pod.metadata.annotations
          [(admissionWebhookAnnotationStatusKey, "injected")] := rfl
    by_cases hb : (pod.metadata.annotations == none ||
        goIndex pod.metadata.annotations admissionWebhookAnnotationStatusKey
          == "") = true
    · have hupd : updateAnnotation pod.metadata.annotations
          [(admissionWebhookAnnotationStatusKey, "injected")] =
          [statusAddOp] := by
        simp [ updateAnnotation, hb, statusAddOp]
      rw [hsplit, hupd, applyPatch_append_single]
      exact mutate_allow_of_not_required cfgs _
        (mutationRequired_fst_false_of_status _ _
          (status_after_statusAddOp _))
    · have hupd : updateAnnotation pod.metadata.annotations
          [(admissionWebhookAnnotationStatusKey, "injected")] =
          [statusReplaceOp] := by
        simp [ updateAnnotation, hb, statusReplaceOp]
      rw [hsplit, hupd, applyPatch_append_single]
      exact mutate_allow_of_not_required cfgs _
        (mutationRequired_fst_false_of_status _ _
          (status_after_statusReplaceOp _))

/-- Witness for C4: a concrete pod with an inject annotation and a
one-profile registry; the produced two-operation patch, once applied,
makes `mutate` allow without a patch. -/
theorem mutate_roundtrip_witness :
    mutate [("web", ⟨[], [⟨"sc", "busybox", none, []⟩], [], [], []⟩)]
      ⟨⟨"p", "default", some [(admissionWebhookAnnotationInjectKey, "web")]⟩,
        ⟨[], [], []⟩⟩ =
      .allowWithPatch
        [{ op := "add", path := "/spec/containers",
           value := .containers [⟨"sc", "busybox", none, []⟩] },
         { op := "add", path := "/metadata/annotations",
           value := .annotations
             [(admissionWebhookAnnotationStatusKey, "injected")] }] ∧
    mutate [("web", ⟨[], [⟨"sc", "busybox", none, []⟩], [], [], []⟩)]
      (applyPatch
        ⟨⟨"p", "default", some [(admissionWebhookAnnotationInjectKey, "web")]⟩,
          ⟨[], [], []⟩⟩
        [{ op := "add", path := "/spec/containers",
           value := .containers [⟨"sc", "busybox", none, []⟩] },
         { op := "add", path := "/metadata/annotations",
           value := .annotations
             [(admissionWebhookAnnotationStatusKey, "injected")] }]) =
      .allow :=
  ⟨by decide,
    mutate_roundtrip [("web", ⟨[], [⟨"sc", "busybox", none, []⟩], [], [], []⟩)]
      ⟨⟨"p", "default", some [(admissionWebhookAnnotationInjectKey, "web")]⟩,
        ⟨[], [], []⟩⟩
      [{ op := "add", path := "/spec/containers",
         value := .containers [⟨"sc", "busybox", none, []⟩] },
       { op := "add", path := "/metadata/annotations",
         value := .annotations
           [(admissionWebhookAnnotationStatusKey, "injected")] }]
      (by decide)⟩

end SimpleSidecar
